import Mathlib

/-!
# Verification of the qr-full PWA client (src/static/app.js, src/static/sw.js)

A shallow embedding of the two JavaScript source files of the repository:

* `src/static/sw.js` — the offline cache service worker (install, activate,
  fetch interception);
* `src/static/app.js` — the page script: the `saveText` submission pipeline,
  the `renderScanDetails` detail renderer, the camera scanning state
  (`scanning` flag, `stream` handle, `stopCam` / `startCam` handlers) and the
  per-frame detection loop `tick`.

JavaScript strings are Lean `String`s; JS truthiness of a string is `≠ ""`;
nullable / possibly-absent JS values are `Option`s; HTTP responses are passed
in as explicit environment values (`none` = network-level rejection).  Opaque
handles (media streams, HTTP response objects) are `Nat` identifiers.
-/

namespace QrFull

/-! ## JavaScript string primitives

The two `String.prototype` methods the sources use, embedded on the
character list so that they evaluate by kernel reduction. -/

/-- JavaScript `s.startsWith(p)`. -/
def jsStartsWith (s p : String) : Bool :=
  p.data.isPrefixOf s.data

/-- JavaScript `s.trim()`: the string without leading and trailing
whitespace. -/
def jsTrim (s : String) : String :=
  ⟨((s.data.dropWhile Char.isWhitespace).reverse.dropWhile
      Char.isWhitespace).reverse⟩

/-! ## Service worker model (src/static/sw.js) -/

/-- `const CACHE_NAME = "qr-full-pwa-v1"` (sw.js line 1). -/
def CACHE_NAME : String := "qr-full-pwa-v1"

/-- `const ASSETS = [...]` (sw.js lines 2–10): the asset manifest cached at
install time. -/
def ASSETS : List String :=
  ["/", "/static/index.html", "/static/style.css", "/static/app.js",
   "/manifest.webmanifest", "/static/icons/icon-192.png",
   "/static/icons/icon-512.png"]

/-- A cache store: an association of request paths to opaque cached
responses. -/
abbrev CacheStore := List (String × Nat)

/-- `cache.addAll(assets)`, modelled from the Cache API contract the source
relies on (sw.js line 12): `addAll` fetches every listed asset and performs a
single batch operation — if any fetch fails the returned promise rejects and
no entry is added; otherwise every fetched response is put into the cache.
`fetchRes a = none` means the fetch of asset `a` failed. -/
def addAll (fetchRes : String → Option Nat) (assets : List String)
    (cache : CacheStore) : Option CacheStore :=
  if assets.all (fun a => (fetchRes a).isSome) then
    some (cache ++ assets.filterMap (fun a => (fetchRes a).map (fun r => (a, r))))
  else
    none

/-- The install listener (sw.js lines 11–13):
`caches.open(CACHE_NAME).then(c => c.addAll(ASSETS))`.  Returns whether the
install succeeded together with the resulting contents of the
`CACHE_NAME` cache; on an `addAll` rejection the cache is left as it was. -/
def install (fetchRes : String → Option Nat) (cache : CacheStore) :
    Bool × CacheStore :=
  match addAll fetchRes ASSETS cache with
  | some c => (true, c)
  | none => (false, cache)

/-- The set of cache generations the activate listener deletes
(sw.js lines 16–18): `keys.filter(k => k !== CACHE_NAME)`, each mapped to
`caches.delete(k)`. -/
def activateDeletes (keys : List String) : List String :=
  keys.filter (fun k => k ≠ CACHE_NAME)

/-- The cache generations that remain after the activate listener ran
(sw.js lines 14–20): the existing keys minus the deleted ones. -/
def activate (keys : List String) : List String :=
  keys.filter (fun k => !((activateDeletes keys).contains k))

/-- `caches.match(request)` on a cache store, matching by request path. -/
def cacheMatch (cache : CacheStore) (path : String) : Option Nat :=
  (cache.find? (fun e => e.1 = path)).map Prod.snd

/-- How the fetch listener answers one intercepted request. -/
inductive FetchOutcome where
  /-- The listener returned without calling `respondWith`: the request goes
  straight to the network. -/
  | passthrough
  /-- Served from the cache store. -/
  | fromCache (resp : Nat)
  /-- `caches.match` missed; the response comes from `fetch(e.request)`. -/
  | fromNetwork (resp : Nat)
deriving DecidableEq, Repr

/-- The fetch listener (sw.js lines 21–27).  `network` is the environment's
network response for a path.  Returns the outcome together with the cache
store after handling, which the listener never writes to. -/
def handleFetch (cache : CacheStore) (network : String → Nat) (path : String) :
    FetchOutcome × CacheStore :=
  if jsStartsWith path "/save_text" || jsStartsWith path "/scan"
      || jsStartsWith path "/list" || jsStartsWith path "/download" then
    (FetchOutcome.passthrough, cache)
  else
    match cacheMatch cache path with
    | some r => (FetchOutcome.fromCache r, cache)
    | none => (FetchOutcome.fromNetwork (network path), cache)

/-! ## Page script model (src/static/app.js)

HTTP environments: a `PostEnv`/`GetEnv` value describes what the one network
round-trip a helper performs comes back with.  `none` is a network-level
rejection of the `fetch` promise.  `some (ok, body)` is a response with HTTP
status flag `ok` (`r.ok`) and `body` the result of `r.json()`: `none` when
the body fails to parse as JSON and `some j` otherwise. -/

/-- The parsed JSON body of a `/save_text` response, as far as `saveText`
inspects it: `none` stands for a falsy parse result (`null` etc.), and
`scan_id` is the optional correlation identifier field. -/
structure SaveResp where
  scan_id : Option String
deriving DecidableEq, Repr

/-- One scan-meta record of a `GET /scan/{id}` response
(`data.scan`, app.js lines 40–43); every field optional. -/
structure ScanMeta where
  store_name : Option String
  cnpj : Option String
  purchase_date : Option String
deriving DecidableEq, Repr

/-- One line item of a `GET /scan/{id}` response (app.js lines 45–53);
every field optional.  Field values are already the strings the DOM would
display (`textContent` stringifies). -/
structure ScanItem where
  name : Option String
  qty : Option String
  unit_price : Option String
  total_price : Option String
deriving DecidableEq, Repr

/-- The parsed JSON body of a `GET /scan/{id}` response. -/
structure ScanDetailResp where
  scan : Option ScanMeta
  items : Option (List ScanItem)
deriving DecidableEq, Repr

/-- Environment for the one POST `saveText` performs. -/
abbrev PostEnv := Option (Bool × Option (Option SaveResp))

/-- Environment for the one GET `renderScanDetails` performs. -/
abbrev GetEnv := Option (Bool × Option ScanDetailResp)

/-- The requests the page script can issue to the backend. -/
inductive Request where
  | postSaveText (text : String) (source : String)
  | getScan (id : String)
deriving DecidableEq, Repr

/-- `fetchJSON` (app.js lines 22–26): awaits the fetch, throws
`"HTTP " + r.status` when `!r.ok`, otherwise returns the parsed body
(a parse failure also rejects). -/
def fetchJSON (resp : Option (Bool × Option α)) : Except Unit α :=
  match resp with
  | none => Except.error ()
  | some (ok, body) =>
    if ok = false then Except.error ()
    else
      match body with
      | none => Except.error ()
      | some j => Except.ok j

/-- `postJSON` (app.js lines 28–35): posts the body and returns `r.json()`
without ever consulting `r.ok` — only a network rejection or a body that
fails to parse makes the promise reject. -/
def postJSON (resp : Option (Bool × Option β)) : Except Unit β :=
  match resp with
  | none => Except.error ()
  | some (_, none) => Except.error ()
  | some (_, some j) => Except.ok j

/-- JavaScript `a || d` on an optional string `a` (string falsy iff empty). -/
def jsOr (v : Option String) (d : String) : String :=
  match v with
  | some s => if s = "" then d else s
  | none => d

/-- JavaScript `a ?? d` on an optional string `a`. -/
def jsNullish (v : Option String) (d : String) : String := v.getD d

/-- What `renderScanDetails` writes into the DOM on a successful detail
fetch: the three store fields and one row of four cells per item. -/
structure RenderedDetails where
  storeName : String
  storeCNPJ : String
  storeDate : String
  rows : List (String × String × String × String)
deriving DecidableEq, Repr

/-- One table row built for an item (app.js lines 46–52):
`it.name || ""`, `it.qty ?? ""`, `it.unit_price ?? ""`,
`it.total_price ?? ""`. -/
def renderRow (it : ScanItem) : String × String × String × String :=
  (jsOr it.name "", jsNullish it.qty "", jsNullish it.unit_price "",
   jsNullish it.total_price "")

/-- The DOM rendering part of `renderScanDetails` (app.js lines 40–53),
applied to an already-fetched detail body: `const s = data.scan || {}`,
placeholders `"—"` for the store fields, and one row per entry of
`data.items || []`. -/
def renderScanDetails (data : ScanDetailResp) : RenderedDetails :=
  let s := data.scan.getD ⟨none, none, none⟩
  { storeName := jsOr s.store_name "—"
    storeCNPJ := jsOr s.cnpj "—"
    storeDate := jsOr s.purchase_date "—"
    rows := (data.items.getD []).map renderRow }

/-- `renderScanDetails` as a whole (app.js lines 37–58): issues
`GET /scan/{scanId}` through `fetchJSON` and renders the body; every error
is caught and only logged, leaving the DOM untouched (`none`). -/
def renderScanDetailsCall (scanId : String) (env : GetEnv) :
    List Request × Option RenderedDetails :=
  ([Request.getScan scanId],
   match fetchJSON env with
   | Except.error _ => none
   | Except.ok d => some (renderScanDetails d))

/-- The observable outcome of one `saveText` call. -/
structure SaveTextOutcome where
  /-- Backend requests issued, in order. -/
  requests : List Request
  /-- `els.last.textContent` after the call — `none` when it was not
  written. -/
  lastText : Option String
  /-- The rendered detail view, when a detail fetch succeeded. -/
  rendered : Option RenderedDetails
  /-- Whether the `catch` branch of `saveText` ran. -/
  caughtError : Bool
deriving DecidableEq, Repr

/-- `saveText` (app.js lines 61–69): posts `{text, source: "pwa"}` to
`/save_text` via `postJSON`; on a resolved parse, writes
`els.last.textContent = text || "—"` and, when `json && json.scan_id` is
truthy, awaits `renderScanDetails(json.scan_id)`; a `postJSON` rejection is
caught and logged. -/
def saveText (text : String) (postEnv : PostEnv) (getEnv : GetEnv) :
    SaveTextOutcome :=
  match postJSON postEnv with
  | Except.error _ =>
    { requests := [Request.postSaveText text "pwa"], lastText := none,
      rendered := none, caughtError := true }
  | Except.ok json =>
    let last := if text = "" then "—" else text
    match json with
    | some r =>
      match r.scan_id with
      | some sid =>
        if sid = "" then
          { requests := [Request.postSaveText text "pwa"],
            lastText := some last, rendered := none, caughtError := false }
        else
          let (reqs, rendered) := renderScanDetailsCall sid getEnv
          { requests := Request.postSaveText text "pwa" :: reqs,
            lastText := some last, rendered := rendered,
            caughtError := false }
      | none =>
        { requests := [Request.postSaveText text "pwa"],
          lastText := some last, rendered := none, caughtError := false }
    | none =>
      { requests := [Request.postSaveText text "pwa"],
        lastText := some last, rendered := none, caughtError := false }

/-- `els.saveText.onclick` (app.js lines 71–75): trims the input box value,
alerts and returns when the trimmed value is empty, otherwise awaits
`saveText` on it.  Returns the alert flag and the `saveText` outcome. -/
def saveTextClick (inputValue : String) (postEnv : PostEnv) (getEnv : GetEnv) :
    Bool × Option SaveTextOutcome :=
  let t := jsTrim inputValue
  if t = "" then (true, none)
  else (false, some (saveText t postEnv getEnv))

/-! ## Camera state and detection loop (app.js lines 97–145) -/

/-- The mutable page state the camera code touches: the module-level
`scanning` and `stream` variables (app.js lines 98–99), plus bookkeeping the
browser keeps for us: `liveStreams` is the set of acquired media streams
whose tracks have not been stopped, and `camSupportMsg` is
`els.camSupport.textContent`. -/
structure PageState where
  scanning : Bool
  stream : Option Nat
  liveStreams : List Nat
  camSupportMsg : Option String
deriving DecidableEq, Repr

/-- Observable events of one detection cycle, in execution order. -/
inductive Ev where
  /-- `detector.detect(els.video)` was invoked. -/
  | detectCall
  /-- The `scanning` flag was set to `false`. -/
  | clearScanning
  /-- `t.stop()` ran on every track of the stream with this id. -/
  | stopStream (id : Nat)
  /-- `saveText(text)` — the Submission Pipeline — was invoked. -/
  | submit (text : String)
deriving DecidableEq, Repr

/-- `els.stopCam.onclick` (app.js lines 100–106): clears `scanning`, stops
the tracks of the currently referenced stream when there is one, and nulls
the reference.  Returns the new state and the emitted events. -/
def stopCamClick (s : PageState) : PageState × List Ev :=
  let s1 := { s with scanning := false }
  match s1.stream with
  | some id =>
    ({ s1 with stream := none, liveStreams := s1.liveStreams.erase id },
     [Ev.clearScanning, Ev.stopStream id])
  | none => (s1, [Ev.clearScanning])

/-- The message shown when `BarcodeDetector` is absent (app.js line 110). -/
def msgNoDetector : String :=
  "Seu navegador não suporta BarcodeDetector. Use upload de imagem."

/-- The message shown when QR is not a supported format (app.js line 115). -/
def msgNoQrFormat : String :=
  "BarcodeDetector disponível, mas sem suporte a QR."

/-- The message shown when opening the camera fails (app.js line 143). -/
def msgCamFailed : String :=
  "Não foi possível abrir a câmera. Tente o upload de imagem."

/-- `els.startCam.onclick` (app.js lines 108–145) up to scheduling the first
detection cycle.  `support` is `"BarcodeDetector" in window`, `qr` is
whether `getSupportedFormats()` includes `"qr_code"`, and `grant` is the
`getUserMedia` result: `none` when the promise rejects, `some id` the
granted stream.  The handler never touches a previously acquired stream. -/
def startCamClick (support : Bool) (qr : Bool) (grant : Option Nat)
    (s : PageState) : PageState :=
  if support = false then
    { s with camSupportMsg := some msgNoDetector }
  else if qr = false then
    { s with camSupportMsg := some msgNoQrFormat }
  else
    match grant with
    | none => { s with camSupportMsg := some msgCamFailed }
    | some id =>
      { s with
          stream := some id
          liveStreams := id :: s.liveStreams
          scanning := true }

/-- `codes[0].rawValue || codes[0].rawValue?.trim()` (app.js line 128): when
`rawValue` is truthy it is taken as is — untrimmed; only a falsy (empty)
`rawValue` reaches the `.trim()` branch. -/
def tickText (rawValue : String) : String :=
  if rawValue = "" then jsTrim rawValue else rawValue

/-- The outcome of one `tick` cycle. -/
structure TickResult where
  state : PageState
  /-- Events of this cycle, in execution order. -/
  trace : List Ev
  /-- Backend requests issued during this cycle. -/
  requests : List Request
  /-- Whether `requestAnimationFrame(tick)` was called for a next cycle. -/
  rescheduled : Bool
deriving DecidableEq, Repr

/-- One cycle of the detection loop `tick` (app.js lines 123–140).
`detect` is the result of `detector.detect(els.video)`: `none` when the
detect promise rejects (caught and logged, loop continues), `some codes`
the decoded codes' `rawValue`s.  The cycle first checks `scanning` and
returns without a detect call when it is cleared; on a truthy first decoded
text it clears `scanning`, clicks `stopCam`, awaits `saveText` and returns
without rescheduling; in every other case it reschedules. -/
def tick (detect : Option (List String)) (postEnv : PostEnv) (getEnv : GetEnv)
    (s : PageState) : TickResult :=
  if s.scanning = false then
    { state := s, trace := [], requests := [], rescheduled := false }
  else
    match detect with
    | none =>
      { state := s, trace := [Ev.detectCall], requests := [],
        rescheduled := true }
    | some codes =>
      match codes with
      | [] =>
        { state := s, trace := [Ev.detectCall], requests := [],
          rescheduled := true }
      | rv :: _ =>
        let text := tickText rv
        if text = "" then
          { state := s, trace := [Ev.detectCall], requests := [],
            rescheduled := true }
        else
          let s1 := { s with scanning := false }
          let stopped := stopCamClick s1
          let out := saveText text postEnv getEnv
          { state := stopped.1,
            trace := Ev.detectCall :: Ev.clearScanning ::
              (stopped.2 ++ [Ev.submit text]),
            requests := out.requests,
            rescheduled := false }

/-- Runs up to `n` further detection cycles from state `s`, feeding cycle
`i` the environment values `detects i`, `postEnvs i`, `getEnvs i`, and
stopping as soon as a cycle does not reschedule — the concatenated event
trace of all executed cycles. -/
def runTicks : Nat → (Nat → Option (List String)) → (Nat → PostEnv) →
    (Nat → GetEnv) → PageState → List Ev
  | 0, _, _, _, _ => []
  | Nat.succ n, detects, postEnvs, getEnvs, s =>
    let r := tick (detects 0) (postEnvs 0) (getEnvs 0) s
    if r.rescheduled then
      r.trace ++ runTicks n (fun i => detects (i + 1))
        (fun i => postEnvs (i + 1)) (fun i => getEnvs (i + 1)) r.state
    else
      r.trace

/-- Whether an event is an invocation of the Submission Pipeline. -/
def Ev.isSubmit : Ev → Bool
  | Ev.submit _ => true
  | _ => false

/-! ## Helper lemmas -/

/-- Keys of the entries `addAll` builds when every fetch succeeded. -/
theorem filterMap_fetch_keys (f : String → Option Nat) (l : List String)
    (h : ∀ a ∈ l, (f a).isSome) :
    (l.filterMap (fun a => (f a).map (fun r => (a, r)))).map Prod.fst = l := by
  induction l with
  | nil => simp
  | cons a t ih =>
    obtain ⟨r, hr⟩ := Option.isSome_iff_exists.mp (h a (List.mem_cons_self a t))
    simp [hr, ih (fun b hb => h b (List.mem_cons_of_mem a hb))]

/-- A duplicate-free list whose elements are all equal has length at most
one. -/
theorem nodup_all_eq_length_le_one {l : List String} {c : String}
    (hnd : l.Nodup) (h : ∀ x ∈ l, x = c) : l.length ≤ 1 := by
  match l, hnd, h with
  | [], _, _ => simp
  | [a], _, _ => simp
  | a :: b :: t, hnd, h =>
    exfalso
    have ha : a = c := h a (by simp)
    have hb : b = c := h b (by simp)
    have : a ∉ b :: t := (List.nodup_cons.mp hnd).1
    exact this (by simp [ha, hb])

/-! ## Theorems for the claims -/

/-- C6: an intercepted request whose path starts with `/save_text`, `/scan`,
`/list` or `/download` is passed through to the network — never answered
from the cache, even when a matching entry exists; every other request is
answered from the cache when a match exists and from the network otherwise;
and handling never writes to the cache store. -/
theorem fetch_handler_policy (cache : CacheStore) (network : String → Nat)
    (path : String) :
    (handleFetch cache network path).2 = cache ∧
    ((jsStartsWith path "/save_text" || jsStartsWith path "/scan"
        || jsStartsWith path "/list" || jsStartsWith path "/download") = true →
      (handleFetch cache network path).1 = FetchOutcome.passthrough) ∧
    ((jsStartsWith path "/save_text" || jsStartsWith path "/scan"
        || jsStartsWith path "/list" || jsStartsWith path "/download") = false →
      (∀ r, cacheMatch cache path = some r →
        (handleFetch cache network path).1 = FetchOutcome.fromCache r) ∧
      (cacheMatch cache path = none →
        (handleFetch cache network path).1 =
          FetchOutcome.fromNetwork (network path))) := by
  cases hb : (jsStartsWith path "/save_text" || jsStartsWith path "/scan"
      || jsStartsWith path "/list" || jsStartsWith path "/download") with
  | true => simp [handleFetch, hb]
  | false =>
    cases hm : cacheMatch cache path with
    | none => simp [handleFetch, hb, hm]
    | some r => simp [handleFetch, hb, hm]

/-- Witness for C6: at concrete inputs, a `/scan` request passes through even
though the cache holds a `/scan` entry, a cached asset is served from the
cache, and an uncached asset is served from the network. -/
theorem fetch_handler_policy_witness :
    (handleFetch [("/scan", 7)] (fun _ => 9) "/scan").1 =
      FetchOutcome.passthrough ∧
    (handleFetch [("/app.js", 3)] (fun _ => 9) "/app.js").1 =
      FetchOutcome.fromCache 3 ∧
    (handleFetch [] (fun _ => 9) "/index.html").1 =
      FetchOutcome.fromNetwork 9 :=
  ⟨(fetch_handler_policy [("/scan", 7)] (fun _ => 9) "/scan").2.1 (by decide),
   ((fetch_handler_policy [("/app.js", 3)] (fun _ => 9) "/app.js").2.2
      (by decide)).1 3 (by decide),
   ((fetch_handler_policy [] (fun _ => 9) "/index.html").2.2
      (by decide)).2 (by decide)⟩

/-- C7: install is atomic over the asset manifest — when every manifest
asset fetch succeeds, the fresh cache afterwards holds exactly the manifest
entries; when any manifest asset fetch fails, the install fails and the
fresh cache holds no entry at all. -/
theorem install_atomic (fetchRes : String → Option Nat) :
    ((∀ a ∈ ASSETS, (fetchRes a).isSome) →
      (install fetchRes []).1 = true ∧
      (install fetchRes []).2.map Prod.fst = ASSETS) ∧
    ((∃ a ∈ ASSETS, fetchRes a = none) →
      install fetchRes [] = (false, [])) := by
  constructor
  · intro h
    have hall : ASSETS.all (fun a => (fetchRes a).isSome) = true :=
      List.all_eq_true.mpr (fun a ha => h a ha)
    simp [install, addAll, hall, filterMap_fetch_keys fetchRes ASSETS h]
  · rintro ⟨a, ha, hnone⟩
    have hall : ASSETS.all (fun a => (fetchRes a).isSome) = false := by
      apply List.all_eq_false.mpr
      exact ⟨a, ha, by simp [hnone]⟩
    simp [install, addAll, hall]

/-- Witness for C7: with every fetch succeeding, install succeeds and the
cache keys are exactly the manifest; with the stylesheet fetch failing,
install fails and the cache stays empty. -/
theorem install_atomic_witness :
    ((install (fun _ => some 5) []).1 = true ∧
      (install (fun _ => some 5) []).2.map Prod.fst = ASSETS) ∧
    install (fun a => if a = "/static/style.css" then none else some 5) [] =
      (false, []) :=
  ⟨(install_atomic (fun _ => some 5)).1 (by intro a _; simp),
   (install_atomic (fun a => if a = "/static/style.css" then none
      else some 5)).2 ⟨"/static/style.css", by decide, by simp⟩⟩

/-- C8: activation deletes exactly the cache generations whose label differs
from `CACHE_NAME`, and what remains is contained in `{CACHE_NAME}` — so for
a duplicate-free starting key set, at most one generation (the current one)
survives, however many stale generations existed. -/
theorem activate_single_generation (keys : List String) (hnd : keys.Nodup) :
    (∀ k, k ∈ activateDeletes keys ↔ k ∈ keys ∧ k ≠ CACHE_NAME) ∧
    (∀ k, k ∈ activate keys ↔ k ∈ keys ∧ k = CACHE_NAME) ∧
    (activate keys).length ≤ 1 := by
  have hdel : ∀ k, k ∈ activateDeletes keys ↔ k ∈ keys ∧ k ≠ CACHE_NAME := by
    intro k
    simp [activateDeletes, List.mem_filter]
  have hcont : ∀ x : String,
      ((activateDeletes keys).contains x = false) ↔
        x ∉ activateDeletes keys := by
    intro x
    rw [Bool.eq_false_iff]
    exact not_congr List.elem_iff
  have hrem : ∀ k, k ∈ activate keys ↔ k ∈ keys ∧ k = CACHE_NAME := by
    intro k
    simp only [activate, List.mem_filter, Bool.not_eq_true', hcont, hdel]
    constructor
    · rintro ⟨hk, hnot⟩
      rcases eq_or_ne k CACHE_NAME with h | h
      · exact ⟨hk, h⟩
      · exact absurd ⟨hk, h⟩ hnot
    · rintro ⟨hk, heq⟩
      exact ⟨hk, fun hc => hc.2 heq⟩
  refine ⟨hdel, hrem, ?_⟩
  exact nodup_all_eq_length_le_one (hnd.filter _)
    (fun x hx => ((hrem x).mp hx).2)

/-- Witness for C8: starting from the current generation plus two stale
generations, activation leaves exactly the current generation. -/
theorem activate_single_generation_witness :
    activate ["qr-full-pwa-v1", "qr-full-pwa-v0", "other-cache"] =
      ["qr-full-pwa-v1"] ∧
    (activate ["qr-full-pwa-v1", "qr-full-pwa-v0", "other-cache"]).length ≤ 1 :=
  ⟨by decide,
   (activate_single_generation ["qr-full-pwa-v1", "qr-full-pwa-v0",
      "other-cache"] (by decide)).2.2⟩

/-- The requests `saveText` issues always start with the `/save_text` POST,
and contain `GET /scan/{id}` exactly when the POST's parsed response object
carries the truthy `scan_id` value `id`.  Shared characterization backing
the request-contract theorems. -/
theorem saveText_requests_spec (t : String) (postEnv : PostEnv)
    (getEnv : GetEnv) :
    ((saveText t postEnv getEnv).requests.head? =
      some (Request.postSaveText t "pwa")) ∧
    (∀ id, Request.getScan id ∈ (saveText t postEnv getEnv).requests ↔
      ∃ ok r, postEnv = some (ok, some (some r)) ∧
        r.scan_id = some id ∧ id ≠ "") := by
  rcases postEnv with _ | ⟨ok, body⟩
  · simp [saveText, postJSON]
  · rcases body with _ | json
    · simp [saveText, postJSON]
    · rcases json with _ | r
      · simp [saveText, postJSON]
      · rcases hsid : r.scan_id with _ | sid
        · simp [saveText, postJSON, hsid]
        · by_cases hemp : sid = ""
          · subst hemp
            simp only [saveText, postJSON, hsid, if_pos rfl]
            constructor
            · rfl
            · intro id
              simp [hsid]
              exact ⟨fun _ h => h.symm, fun _ h => h.symm⟩
          · have hreq : (saveText t (some (ok, some (some r))) getEnv).requests
                = [Request.postSaveText t "pwa", Request.getScan sid] := by
              simp [saveText, postJSON, renderScanDetailsCall, hsid,
                if_neg hemp]
            constructor
            · rw [hreq]
              rfl
            · intro id
              rw [hreq]
              constructor
              · intro hmem
                rcases List.mem_cons.mp hmem with heq | hmem2
                · exact absurd heq (by simp)
                · have heq2 := List.mem_singleton.mp hmem2
                  injection heq2 with hid
                  subst hid
                  exact ⟨ok, r, rfl, hsid, hemp⟩
              · rintro ⟨ok', r', heq, hsid', hne⟩
                have hok : ok = ok' ∧ r = r' := by
                  simpa using heq
                obtain ⟨rfl, rfl⟩ := hok
                rw [hsid] at hsid'
                injection hsid' with hid
                subst hid
                simp

/-- C5: for every submitted text `t`, `saveText` first POSTs `/save_text`
with body `{text: t, source: "pwa"}`, and it issues the dependent
`GET /scan/{id}` exactly when the parsed `/save_text` response is an object
carrying the truthy `scan_id` value `id`. -/
theorem save_text_request_contract (t : String) (postEnv : PostEnv)
    (getEnv : GetEnv) :
    ((saveText t postEnv getEnv).requests.head? =
      some (Request.postSaveText t "pwa")) ∧
    (∀ id, Request.getScan id ∈ (saveText t postEnv getEnv).requests ↔
      ∃ ok r, postEnv = some (ok, some (some r)) ∧
        r.scan_id = some id ∧ id ≠ "") :=
  saveText_requests_spec t postEnv getEnv

/-- Witness for C5: the spec scenario — text `"abc"` with response
`{scan_id: "42"}` yields the POST body `{text:"abc", source:"pwa"}` followed
by `GET /scan/42`. -/
theorem save_text_request_contract_witness :
    (saveText "abc" (some (true, some (some ⟨some "42"⟩))) none).requests =
      [Request.postSaveText "abc" "pwa", Request.getScan "42"] ∧
    Request.getScan "42" ∈
      (saveText "abc" (some (true, some (some ⟨some "42"⟩))) none).requests :=
  ⟨rfl,
   ((save_text_request_contract "abc" (some (true, some (some ⟨some "42"⟩)))
      none).2 "42").mpr ⟨true, ⟨some "42"⟩, rfl, rfl, by decide⟩⟩

/-- C10: the POST helper never inspects the HTTP status — its result is the
same for an ok and a non-ok response; a `/save_text` response whose body
parses proceeds as a success (`catch` not taken, last-scanned text written,
detail GET issued exactly when a truthy `scan_id` is present) even when the
status is non-2xx; the GET helper errors on every non-ok response; and
`saveText` reaches its catch branch exactly on a network rejection or an
unparseable body. -/
theorem post_helper_ignores_status (t : String) (b b' : Bool)
    (json : Option SaveResp) (body : Option (Option SaveResp))
    (postEnv : PostEnv) (getEnv : GetEnv) (gbody : Option ScanDetailResp) :
    (postJSON (some (b, body)) = postJSON (some (b', body))) ∧
    ((saveText t (some (b, some json)) getEnv).caughtError = false) ∧
    ((saveText t (some (b, some json)) getEnv).lastText =
      some (if t = "" then "—" else t)) ∧
    (∀ id, Request.getScan id ∈
        (saveText t (some (b, some json)) getEnv).requests ↔
      ∃ r, json = some r ∧ r.scan_id = some id ∧ id ≠ "") ∧
    (fetchJSON (α := ScanDetailResp) (some (false, gbody)) =
      Except.error ()) ∧
    ((saveText t postEnv getEnv).caughtError = true ↔
      postEnv = none ∨ ∃ ok, postEnv = some (ok, none)) := by
  refine ⟨?_, ?_, ?_, ?_, ?_, ?_⟩
  · cases body <;> rfl
  · rcases json with _ | r
    · simp [saveText, postJSON]
    · rcases hsid : r.scan_id with _ | sid
      · simp [saveText, postJSON, hsid]
      · by_cases hemp : sid = ""
        · subst hemp
          simp [saveText, postJSON, hsid]
        · simp [saveText, postJSON, renderScanDetailsCall, hsid, hemp]
  · rcases json with _ | r
    · simp [saveText, postJSON]
    · rcases hsid : r.scan_id with _ | sid
      · simp [saveText, postJSON, hsid]
      · by_cases hemp : sid = ""
        · subst hemp
          simp [saveText, postJSON, hsid]
        · simp [saveText, postJSON, renderScanDetailsCall, hsid, hemp]
  · intro id
    have h := (saveText_requests_spec t (some (b, some json)) getEnv).2 id
    rw [h]
    constructor
    · rintro ⟨_, r, heq, hsid, hne⟩
      rcases heq with ⟨heq⟩
      exact ⟨r, rfl, hsid, hne⟩
    · rintro ⟨r, rfl, hsid, hne⟩
      exact ⟨b, r, rfl, hsid, hne⟩
  · rfl
  · rcases postEnv with _ | ⟨ok, body'⟩
    · simp [saveText, postJSON]
    · rcases body' with _ | json'
      · simp [saveText, postJSON]
      · rcases json' with _ | r
        · simp [saveText, postJSON]
        · rcases hsid : r.scan_id with _ | sid
          · simp [saveText, postJSON, hsid]
          · by_cases hemp : sid = ""
            · subst hemp
              simp [saveText, postJSON, hsid]
            · simp [saveText, postJSON, renderScanDetailsCall, hsid, hemp]

/-- Witness for C10: a non-2xx `/save_text` response with parseable body
`{scan_id:"42"}` still updates the last-scanned text and still triggers the
dependent `GET /scan/42`, while the GET helper rejects a non-ok response. -/
theorem post_helper_ignores_status_witness :
    (saveText "abc" (some (false, some (some ⟨some "42"⟩))) none).caughtError
      = false ∧
    (saveText "abc" (some (false, some (some ⟨some "42"⟩))) none).lastText
      = some "abc" ∧
    Request.getScan "42" ∈
      (saveText "abc" (some (false, some (some ⟨some "42"⟩))) none).requests ∧
    fetchJSON (α := ScanDetailResp) (some (false, some ⟨none, none⟩)) =
      Except.error () := by
  have h := post_helper_ignores_status "abc" false true (some ⟨some "42"⟩)
    (some (some ⟨some "42"⟩)) none none (some ⟨none, none⟩)
  refine ⟨h.2.1, ?_, ?_, h.2.2.2.2.1⟩
  · have h3 := h.2.2.1
    simpa using h3
  · exact (h.2.2.2.1 "42").mpr ⟨⟨some "42"⟩, rfl, rfl, by decide⟩

/-- C9 counterexample: a detail record whose only line item has all four
optional fields absent is rendered as a row of four empty strings — blank
cells, not the `"—"` placeholder. -/
theorem render_details_blank_item_cells :
    (renderScanDetails ⟨some ⟨none, none, none⟩,
        some [⟨none, none, none, none⟩]⟩).rows = [("", "", "", "")] ∧
    ("" : String) ≠ "—" := by
  constructor
  · rfl
  · decide

/-- C9 as amended: missing scan-meta fields (store name, tax id, purchase
date) render the `"—"` placeholder, while missing line-item fields (name,
quantity, unit price, total price) render as the empty string, i.e. a blank
cell. -/
theorem render_details_placeholder_policy (m : ScanMeta) (it : ScanItem) :
    (m.store_name = none →
      (renderScanDetails ⟨some m, some [it]⟩).storeName = "—") ∧
    (m.cnpj = none →
      (renderScanDetails ⟨some m, some [it]⟩).storeCNPJ = "—") ∧
    (m.purchase_date = none →
      (renderScanDetails ⟨some m, some [it]⟩).storeDate = "—") ∧
    (it.name = none → (renderRow it).1 = "") ∧
    (it.qty = none → (renderRow it).2.1 = "") ∧
    (it.unit_price = none → (renderRow it).2.2.1 = "") ∧
    (it.total_price = none → (renderRow it).2.2.2 = "") ∧
    (renderScanDetails ⟨some m, some [it]⟩).rows = [renderRow it] := by
  refine ⟨?_, ?_, ?_, ?_, ?_, ?_, ?_, ?_⟩ <;>
    first
    | (intro h; simp [renderScanDetails, renderRow, jsOr, jsNullish, h])
    | simp [renderScanDetails]

/-- Witness for C9 (amended): a record with every optional field absent
renders `"—"` in the three store fields and `""` in all four item cells. -/
theorem render_details_placeholder_policy_witness :
    (renderScanDetails ⟨some ⟨none, none, none⟩,
        some [⟨none, none, none, none⟩]⟩).storeName = "—" ∧
    (renderScanDetails ⟨some ⟨none, none, none⟩,
        some [⟨none, none, none, none⟩]⟩).storeCNPJ = "—" ∧
    (renderScanDetails ⟨some ⟨none, none, none⟩,
        some [⟨none, none, none, none⟩]⟩).storeDate = "—" ∧
    (renderRow ⟨none, none, none, none⟩).1 = "" ∧
    (renderRow ⟨none, none, none, none⟩).2.1 = "" ∧
    (renderRow ⟨none, none, none, none⟩).2.2.1 = "" ∧
    (renderRow ⟨none, none, none, none⟩).2.2.2 = "" := by
  have h := render_details_placeholder_policy ⟨none, none, none⟩
    ⟨none, none, none, none⟩
  exact ⟨h.1 rfl, h.2.1 rfl, h.2.2.1 rfl, h.2.2.2.1 rfl, h.2.2.2.2.1 rfl,
    h.2.2.2.2.2.1 rfl, h.2.2.2.2.2.2.1 rfl⟩

/-- A state whose `scanning` flag is cleared runs no further cycle: every
bounded continuation of the loop from it is empty. -/
theorem runTicks_stopped (n : Nat) (detects : Nat → Option (List String))
    (postEnvs : Nat → PostEnv) (getEnvs : Nat → GetEnv) (s : PageState)
    (h : s.scanning = false) :
    runTicks n detects postEnvs getEnvs s = [] := by
  cases n with
  | zero => rfl
  | succ n => simp [runTicks, tick, h]

/-- C4: a detection cycle that observes the `scanning` flag cleared returns
immediately — no detect call, no event, no request, no state change — and
does not reschedule, whatever the detector would have returned; hence every
bounded continuation of the loop from such a state runs no further cycle. -/
theorem loop_halts_once_flag_cleared (detect : Option (List String))
    (postEnv : PostEnv) (getEnv : GetEnv) (s : PageState)
    (h : s.scanning = false) :
    tick detect postEnv getEnv s =
      { state := s, trace := [], requests := [], rescheduled := false } ∧
    (∀ n detects postEnvs getEnvs,
      runTicks n detects postEnvs getEnvs s = []) := by
  constructor
  · simp [tick, h]
  · intro n detects postEnvs getEnvs
    exact runTicks_stopped n detects postEnvs getEnvs s h

/-- Witness for C4: after `stopCam` cleared the flag, a cycle fed a decoded
code does nothing and five further scheduled cycles produce no event. -/
theorem loop_halts_once_flag_cleared_witness :
    tick (some ["abc"]) none none ⟨false, none, [], none⟩ =
      { state := ⟨false, none, [], none⟩, trace := [], requests := [],
        rescheduled := false } ∧
    runTicks 5 (fun _ => some ["abc"]) (fun _ => none) (fun _ => none)
      ⟨false, none, [], none⟩ = [] :=
  ⟨(loop_halts_once_flag_cleared (some ["abc"]) none none
      ⟨false, none, [], none⟩ rfl).1,
   (loop_halts_once_flag_cleared (some ["abc"]) none none
      ⟨false, none, [], none⟩ rfl).2 5 (fun _ => some ["abc"])
      (fun _ => none) (fun _ => none)⟩

/-- C3 counterexample: a cycle whose detection yields `["", "x"]` — so at
least one non-empty decoded text — inspects only the first code, submits
nothing, keeps `scanning` set and reschedules another cycle. -/
theorem detection_ignores_later_codes :
    (tick (some ["", "x"]) none none ⟨true, some 0, [0], none⟩).rescheduled
      = true ∧
    (tick (some ["", "x"]) none none
        ⟨true, some 0, [0], none⟩).trace.filter Ev.isSubmit = [] ∧
    (tick (some ["", "x"]) none none
        ⟨true, some 0, [0], none⟩).state.scanning = true := by
  refine ⟨rfl, rfl, rfl⟩

/-- C3 as amended: whenever a detection cycle yields a code list whose
*first* decoded text is non-empty, the cycle clears `scanning` and stops the
session's stream strictly before `saveText` is invoked, does not schedule
another cycle, exits with the flag cleared and the stream released, submits
exactly once, and every bounded continuation of the loop from the exit
state runs no further cycle — at most one submission per scan session. -/
theorem detection_stop_before_submit (s : PageState) (rv : String)
    (rest : List String) (postEnv : PostEnv) (getEnv : GetEnv)
    (hs : s.scanning = true) (hrv : rv ≠ "") :
    (∃ pre, (tick (some (rv :: rest)) postEnv getEnv s).trace =
        pre ++ [Ev.submit rv] ∧
      Ev.clearScanning ∈ pre ∧
      (∀ id, s.stream = some id → Ev.stopStream id ∈ pre)) ∧
    (tick (some (rv :: rest)) postEnv getEnv s).rescheduled = false ∧
    (tick (some (rv :: rest)) postEnv getEnv s).state.scanning = false ∧
    (tick (some (rv :: rest)) postEnv getEnv s).state.stream = none ∧
    ((tick (some (rv :: rest)) postEnv getEnv s).trace.filter
      Ev.isSubmit).length = 1 ∧
    (∀ n detects postEnvs getEnvs, runTicks n detects postEnvs getEnvs
      (tick (some (rv :: rest)) postEnv getEnv s).state = []) := by
  have htext : tickText rv = rv := if_neg hrv
  cases hstream : s.stream with
  | some id =>
    have htick : tick (some (rv :: rest)) postEnv getEnv s =
        { state :=
            { s with
                scanning := false
                stream := none
                liveStreams := s.liveStreams.erase id }
          trace := [Ev.detectCall, Ev.clearScanning, Ev.clearScanning,
            Ev.stopStream id, Ev.submit rv]
          requests := (saveText rv postEnv getEnv).requests
          rescheduled := false } := by
      simp [tick, hs, htext, hrv, stopCamClick, hstream]
    rw [htick]
    refine ⟨⟨[Ev.detectCall, Ev.clearScanning, Ev.clearScanning,
      Ev.stopStream id], rfl, by simp, ?_⟩, rfl, rfl, rfl, ?_, ?_⟩
    · intro id' hid'
      injection hid' with h
      subst h
      simp
    · simp [Ev.isSubmit]
    · intro n detects postEnvs getEnvs
      exact runTicks_stopped n detects postEnvs getEnvs _ rfl
  | none =>
    have htick : tick (some (rv :: rest)) postEnv getEnv s =
        { state := { s with scanning := false }
          trace := [Ev.detectCall, Ev.clearScanning, Ev.clearScanning,
            Ev.submit rv]
          requests := (saveText rv postEnv getEnv).requests
          rescheduled := false } := by
      simp [tick, hs, htext, hrv, stopCamClick, hstream]
    rw [htick]
    refine ⟨⟨[Ev.detectCall, Ev.clearScanning, Ev.clearScanning], rfl,
      by simp, ?_⟩, rfl, rfl, hstream, ?_, ?_⟩
    · intro id' hid'
      simp at hid'
    · simp [Ev.isSubmit]
    · intro n detects postEnvs getEnvs
      exact runTicks_stopped n detects postEnvs getEnvs _ rfl

/-- Witness for C3 (amended): a scanning session holding stream `0` whose
cycle decodes `"abc"` stops, submits once and runs no further cycle. -/
theorem detection_stop_before_submit_witness :
    (tick (some ["abc"]) none none ⟨true, some 0, [0], none⟩).rescheduled
      = false ∧
    (tick (some ["abc"]) none none
      ⟨true, some 0, [0], none⟩).state.scanning = false ∧
    (tick (some ["abc"]) none none ⟨true, some 0, [0], none⟩).state.stream
      = none ∧
    ((tick (some ["abc"]) none none
      ⟨true, some 0, [0], none⟩).trace.filter Ev.isSubmit).length = 1 ∧
    runTicks 5 (fun _ => some ["abc"]) (fun _ => none) (fun _ => none)
      (tick (some ["abc"]) none none ⟨true, some 0, [0], none⟩).state
      = [] := by
  have h := detection_stop_before_submit ⟨true, some 0, [0], none⟩ "abc" []
    none none rfl (by decide)
  exact ⟨h.2.1, h.2.2.1, h.2.2.2.1, h.2.2.2.2.1,
    h.2.2.2.2.2 5 (fun _ => some ["abc"]) (fun _ => none) (fun _ => none)⟩

/-- C1 (code behaviour at the failing input): a camera decode whose raw text
is the single space `" "` is passed to `saveText` untrimmed — the pipeline
issues a `/save_text` request whose `text` field is whitespace-only, even
though that text trims to empty. -/
theorem camera_submits_whitespace_text :
    (tick (some [" "]) none none ⟨true, some 0, [0], none⟩).requests =
      [Request.postSaveText " " "pwa"] ∧
    Ev.submit " " ∈
      (tick (some [" "]) none none ⟨true, some 0, [0], none⟩).trace ∧
    jsTrim " " = "" := by
  refine ⟨rfl, ?_, by decide⟩
  simp [tick, stopCamClick, tickText, saveText, postJSON]

/-- C2 (code behaviour at the failing input): clicking start twice with both
camera grants succeeding leaves the first stream's tracks running — the
handler overwrites the `stream` reference without stopping the previous
stream, so stream `0` stays live and unreferenced while stream `1` is
acquired. -/
theorem start_does_not_teardown_previous_stream :
    (startCamClick true true (some 1)
      (startCamClick true true (some 0) ⟨false, none, [], none⟩)).stream
      = some 1 ∧
    (startCamClick true true (some 1)
      (startCamClick true true (some 0)
        ⟨false, none, [], none⟩)).liveStreams = [1, 0] := by
  refine ⟨rfl, rfl⟩

end QrFull
